import Mathlib

/-!
Verification development for the custom web server of this repository
(package `web`): the Tailscale-network access gate, the per-platform
system-metrics collectors, the per-platform shutdown actuators, and the
HTTP dispatcher that wires them together.

The definitions below are shallow embeddings of the Go source:
  * the access gate (`isLocalhost`, `isTailscaleIP`, `requireTailscale`),
  * the address model and the parts of Go `net/netip` the gate calls
    (`ParseAddr`, `Addr.Is4`, `Addr.Is6`, `Addr.String`),
  * the Linux CPU sampler (`getCPUUsage` of `metrics_linux.go`),
  * the Windows metrics collector (`getSystemMetrics` of the windows file),
  * the three platform `shutdownSystem` backends,
  * the handlers (`handleRoot`, `handleMetrics`, `handleShutdown`) and the
    mux wiring of `Server.Start`.

Machine integers are modelled as `Nat` with explicit `% 2^64` where Go's
`uint64` arithmetic can wrap; Go `float64` arithmetic is modelled with `ℚ`
(exact on all values appearing in the theorems below).  External effects
(executed commands, Windows API calls, the HTTP flush, the pre-shutdown
sleep, collector invocation) are recorded in an explicit event trace.
-/

set_option autoImplicit false

namespace TailscaleWeb

/-! ## Address model (Go `net/netip.Addr`)

`Addr.v4` models an address of the IPv4 family (`Is4() = true`);
`Addr.v6` carries the eight 16-bit groups of an IPv6-family address,
including IPv4-mapped addresses, for which Go's `Is4()` is `false` and
`Is4In6()` is `true`.  IPv6 zone suffixes are not modelled (no claim
involves a zoned address; a `%` in the input makes the model parser fail).
-/

inductive Addr where
  | v4 (b0 b1 b2 b3 : Nat) : Addr
  | v6 (g0 g1 g2 g3 g4 g5 g6 g7 : Nat) : Addr
  deriving DecidableEq, BEq, Repr

namespace Addr

/-- Go `netip.Addr.Is4`: true exactly for the IPv4 family
(false for IPv4-mapped IPv6 addresses). -/
def Is4 : Addr → Bool
  | .v4 _ _ _ _ => true
  | .v6 _ _ _ _ _ _ _ _ => false

/-- Go `netip.Addr.Is6`: true exactly for the IPv6 family,
including IPv4-mapped IPv6 addresses. -/
def Is6 : Addr → Bool
  | .v4 _ _ _ _ => false
  | .v6 _ _ _ _ _ _ _ _ => true

/-- Go `netip.Addr.Is4In6`: an IPv6-family address whose first five
16-bit groups are zero and whose sixth is `0xffff`. -/
def Is4In6 : Addr → Bool
  | .v4 _ _ _ _ => false
  | .v6 g0 g1 g2 g3 g4 g5 _ _ =>
    g0 == 0 && g1 == 0 && g2 == 0 && g3 == 0 && g4 == 0 && g5 == 0xffff

end Addr

/-! ## Textual form of an address (Go `netip.Addr.String`) -/

/-- Dotted-quad form of four octets, as printed by Go. -/
def string4 (b0 b1 b2 b3 : Nat) : String :=
  toString b0 ++ "." ++ toString b1 ++ "." ++ toString b2 ++ "." ++ toString b3

/-- Lowercase hexadecimal form of a 16-bit group without leading zeros
(Go `appendHex`). -/
def hexStr (n : Nat) : String :=
  String.mk (Nat.toDigits 16 n)

/-- Length of the run of zero groups starting at index `i`
(inner loop of Go `appendTo6`). -/
def zeroRunLen (gs : List Nat) (i : Nat) : Nat :=
  ((gs.drop i).takeWhile (fun g => g == 0)).length

/-- The compressed zero run chosen by Go `appendTo6`: the longest run of
at least two zero groups, leftmost on ties (the strict `>` in the source
keeps the earlier candidate). Returns `(start, stop)` with `stop`
exclusive, or `none` when no run qualifies. -/
def bestZeroRun (gs : List Nat) : Option (Nat × Nat) :=
  (List.range 8).foldl
    (fun best i =>
      let l := zeroRunLen gs i
      match best with
      | none => if 2 ≤ l then some (i, i + l) else none
      | some (zs, ze) => if 2 ≤ l && ze - zs < l then some (i, i + l) else best)
    none

/-- Go `appendTo6`: hex groups joined by `:`, with the chosen zero run
replaced by `::`. -/
def emit6 (gs : List Nat) : String :=
  match bestZeroRun gs with
  | none => String.intercalate ":" (gs.map hexStr)
  | some (zs, ze) =>
      String.intercalate ":" ((gs.take zs).map hexStr) ++ "::" ++
        String.intercalate ":" ((gs.drop ze).map hexStr)

/-- Go `netip.Addr.String` (zone-free): dotted quad for the IPv4 family,
`::ffff:a.b.c.d` for IPv4-mapped addresses, RFC 5952 style otherwise. -/
def addrString : Addr → String
  | .v4 b0 b1 b2 b3 => string4 b0 b1 b2 b3
  | .v6 g0 g1 g2 g3 g4 g5 g6 g7 =>
    if g0 == 0 && g1 == 0 && g2 == 0 && g3 == 0 && g4 == 0 && g5 == 0xffff then
      "::ffff:" ++ string4 (g6 / 256) (g6 % 256) (g7 / 256) (g7 % 256)
    else
      emit6 [g0, g1, g2, g3, g4, g5, g6, g7]

/-! ## Parsing (Go `net/netip.ParseAddr`) -/

/-- Split a character list on a single separator character
(the behavior of Go `strings.Split` with a one-character separator). -/
def splitOnChar (sep : Char) : List Char → List (List Char)
  | [] => [[]]
  | c :: cs =>
    if c == sep then
      [] :: splitOnChar sep cs
    else
      match splitOnChar sep cs with
      | h :: t => (c :: h) :: t
      | [] => [[c]]

/-- Split a character list on the two-character separator `::`
(the behavior of Go `strings.Split` with separator `"::"`). -/
def splitColonColon : List Char → List (List Char)
  | ':' :: ':' :: cs => [] :: splitColonColon cs
  | c :: cs =>
    match splitColonColon cs with
    | h :: t => (c :: h) :: t
    | [] => [[c]]
  | [] => [[]]

/-- One decimal IPv4 field: one to three digits, no leading zero, at most
255 (the field rules of Go `parseIPv4Fields`). -/
def parseV4Field (cs : List Char) : Option Nat :=
  if cs.isEmpty || 3 < cs.length then none
  else if !(cs.all Char.isDigit) then none
  else if 1 < cs.length && cs.head? == some '0' then none
  else
    let v := cs.foldl (fun acc c => acc * 10 + (c.toNat - 48)) 0
    if v ≤ 255 then some v else none

/-- Go `parseIPv4`: exactly four dot-separated fields. -/
def parseIPv4 (cs : List Char) : Option Addr :=
  match (splitOnChar '.' cs).mapM parseV4Field with
  | some [a, b, c, d] => some (.v4 a b c d)
  | _ => none

/-- Hexadecimal digit test of Go's IPv6 field parser
(both cases accepted). -/
def isHexDigitGo (c : Char) : Bool :=
  c.isDigit || ('a' ≤ c && c ≤ 'f') || ('A' ≤ c && c ≤ 'F')

/-- Value of a hexadecimal digit. -/
def hexVal (c : Char) : Nat :=
  if c.isDigit then c.toNat - 48
  else if 'a' ≤ c && c ≤ 'f' then c.toNat - 87
  else c.toNat - 55

/-- One hexadecimal IPv6 group: one to four hex digits. -/
def parseHexGroup (cs : List Char) : Option Nat :=
  if cs.isEmpty || 4 < cs.length then none
  else if !(cs.all isHexDigitGo) then none
  else some (cs.foldl (fun acc c => acc * 16 + hexVal c) 0)

/-- One colon-separated chunk of an IPv6 literal.  A dotted chunk is the
embedded IPv4 tail and is only legal as the final chunk of the whole
address (Go parses the v4 tail through to the end of the string); it
contributes two 16-bit groups. -/
def parseV6Chunk (endOfAddr : Bool) (cs : List Char) : Option (List Nat) :=
  if cs.contains '.' then
    if endOfAddr then
      match parseIPv4 cs with
      | some (.v4 a b c d) => some [a * 256 + b, c * 256 + d]
      | _ => none
    else none
  else
    (parseHexGroup cs).map (fun g => [g])

/-- Parse a colon-separated chunk list; `endOfAddr` is true when the list
ends the whole address text. -/
def parseChunks (endOfAddr : Bool) : List (List Char) → Option (List Nat)
  | [] => some []
  | [c] => parseV6Chunk endOfAddr c
  | c :: rest => do
    let g ← parseV6Chunk false c
    let gs ← parseChunks endOfAddr rest
    pure (g ++ gs)

/-- Chunks of one side of a (possibly elided) IPv6 literal; an empty side
contributes no groups. -/
def sideChunks (cs : List Char) : List (List Char) :=
  if cs.isEmpty then [] else splitOnChar ':' cs

/-- Build an `Addr` from exactly eight 16-bit groups. -/
def mkV6 : List Nat → Option Addr
  | [g0, g1, g2, g3, g4, g5, g6, g7] => some (.v6 g0 g1 g2 g3 g4 g5 g6 g7)
  | _ => none

/-- Go `parseIPv6`: at most one `::`, which must elide at least one zero
group; without `::` exactly eight groups are required. -/
def parseIPv6 (cs : List Char) : Option Addr :=
  match splitColonColon cs with
  | [whole] => do
    let gs ← parseChunks true (sideChunks whole)
    if gs.length == 8 then mkV6 gs else none
  | [l, r] => do
    let gl ← parseChunks false (sideChunks l)
    let gr ← parseChunks true (sideChunks r)
    if 8 ≤ gl.length + gr.length then none
    else mkV6 (gl ++ List.replicate (8 - (gl.length + gr.length)) 0 ++ gr)
  | _ => none

/-- The first character that decides the address family in Go
`netip.ParseAddr`'s dispatch loop. -/
def firstSpecial : List Char → Option Char
  | [] => none
  | c :: cs =>
    if c == '.' || c == ':' || c == '%' then some c else firstSpecial cs

/-- Go `net/netip.ParseAddr`: dispatch on the first `.`/`:` of the text;
a string with neither (such as `localhost`) fails to parse.  Zones are
not modelled: a leading-family `%` makes the parse fail. -/
def ParseAddr (s : String) : Option Addr :=
  match firstSpecial s.data with
  | some '.' => parseIPv4 s.data
  | some ':' => parseIPv6 s.data
  | _ => none

/-! ## The access gate (`isLocalhost`, `isTailscaleIP`, `requireTailscale`) -/

/-- Go `strings.HasPrefix p` applied to `s` (used by `isTailscaleIP`'s
IPv6 branch). -/
def hasPfx (s p : String) : Bool :=
  p.data.isPrefixOf s.data

/-- `isLocalhost` of the web server: string comparison against the three
loopback literals, before any parsing. -/
def isLocalhost (ip : String) : Bool :=
  ip == "127.0.0.1" || ip == "::1" || ip == "localhost"

/-- `isTailscaleIP` of the web server.  The source tests `addr.Is4()`
first (octet test for 100.64.0.0/10), then `addr.Is6()` (canonical text
begins with the reserved ULA prefix); both tests together are exhaustive
on parsed addresses, so the trailing `return false` of the source is
unreachable here. -/
def isTailscaleIP : Addr → Bool
  | .v4 b0 b1 _ _ => b0 == 100 && (b1 &&& 0xC0) == 64
  | a@(.v6 _ _ _ _ _ _ _ _) => hasPfx (addrString a) "fd7a:115c:a1e0:"

/-- `status.Self` of `LocalBackend.StatusWithoutPeers()`: the local
node's own Tailscale addresses; `none` models a nil `Self`. -/
structure SelfStatus where
  tailscaleIPs : List Addr

/-- The peer-roster collaborator behind `s.lb`; `Option Backend` models
the possibly-nil `*ipnlocal.LocalBackend`. -/
structure Backend where
  selfStatus : Option SelfStatus

/-- Outcome of the `requireTailscale` middleware for one client address:
either the wrapped handler runs, or one of the two 403 responses is
written. -/
inductive Decision where
  | allowed
  | forbiddenInvalid
  | forbiddenNotMember
  deriving DecidableEq, Repr

/-- The decision path of `requireTailscale` (source lines 180–215) for a
client host (the `RemoteAddr` after the `net.SplitHostPort` strip):
loopback literals first, then parse (fail closed), then the CGNAT/ULA
range test, then the roster's own-address comparison. -/
def gateDecision (clientIP : String) (lb : Option Backend) : Decision :=
  if isLocalhost clientIP then
    .allowed
  else
    match ParseAddr clientIP with
    | none => .forbiddenInvalid
    | some addr =>
      if isTailscaleIP addr then
        .allowed
      else
        match lb with
        | some backend =>
          match backend.selfStatus with
          | some self =>
            if self.tailscaleIPs.contains addr then .allowed
            else .forbiddenNotMember
          | none => .forbiddenNotMember
        | none => .forbiddenNotMember

/-- Whether the roster step (source lines 200–212) admits `addr`: a
backend is present, its `Self` is present, and one of the node's own
addresses equals the parsed address exactly. -/
def rosterAllows (lb : Option Backend) (addr : Addr) : Bool :=
  match lb with
  | some backend =>
    match backend.selfStatus with
    | some self => self.tailscaleIPs.contains addr
    | none => false
  | none => false

/-! ## System metrics (`metrics.go`, `metrics_linux.go`, windows backend)

Go `float64` values are modelled with `ℚ`; `uint64` values with `Nat`
(bounded by `U64` where wraparound matters). -/

/-- `SystemMetrics` of `metrics.go`; field defaults are the Go zero
values of `&SystemMetrics{}`. -/
structure SystemMetrics where
  CPUPercent : ℚ := 0
  MemoryUsed : Nat := 0
  MemoryTotal : Nat := 0
  MemoryPercent : ℚ := 0
  DiskUsed : Nat := 0
  DiskTotal : Nat := 0
  DiskPercent : ℚ := 0
  NetworkBytesSent : Nat := 0
  NetworkBytesRecv : Nat := 0
  UptimeSeconds : Nat := 0
  deriving DecidableEq, Repr

/-- `2^64`, the modulus of Go `uint64` arithmetic. -/
def U64 : Nat := 2 ^ 64

/-- The Linux `cpuStats` sample: the six `/proc/stat` counters and their
sum `total` (summed in `uint64`, hence mod `2^64`).  The `time` field of
the source is stored but never read and is omitted. -/
structure CpuStats where
  user : Nat := 0
  nice : Nat := 0
  system : Nat := 0
  idle : Nat := 0
  iowait : Nat := 0
  irq : Nat := 0
  total : Nat := 0
  deriving DecidableEq, Repr

/-- Build a sample from parsed counters the way lines 98–106 of
`metrics_linux.go` do: `total` is the `uint64` sum of the six fields. -/
def mkStats (user nice system idle iowait irq : Nat) : CpuStats :=
  { user, nice, system, idle, iowait, irq,
    total := (user + nice + system + idle + iowait + irq) % U64 }

/-- The zero value of the package-level `lastCPUStats` at process start. -/
def initialCPUStats : CpuStats := {}

/-- `getCPUUsage` of `metrics_linux.go`, lines 108–121, as a state
transition: given the freshly parsed sample `stats` and the stored
`lastCPUStats` value `last`, return the reported percentage and the new
stored sample.  `uint64` subtraction `a - b` is `(a + 2^64 - b) % 2^64`;
the guard `lastCPUStats.total > 0` skips the delta on the very first
call (the zero value), and the guard `totalDelta > 0` skips a zero
delta.  Every path stores `stats`. -/
def getCPUUsage (stats last : CpuStats) : ℚ × CpuStats :=
  if 0 < last.total then
    let totalDelta := (stats.total + U64 - last.total) % U64
    let idleDelta := (stats.idle + U64 - last.idle) % U64
    if 0 < totalDelta then
      ((((totalDelta + U64 - idleDelta) % U64 : ℕ) : ℚ) / (totalDelta : ℚ) * 100,
        stats)
    else (0, stats)
  else (0, stats)

/-- Results of the sub-measurements of the windows `getSystemMetrics`:
`none` models a non-nil error from the corresponding helper, after which
the fields stay at their zero values. -/
structure WindowsMetricsEnv where
  cpuResult : Option ℚ
  memResult : Option (Nat × Nat)
  diskResult : Option (Nat × Nat)
  uptimeResult : Option Nat

/-- `getSystemMetrics` of the windows backend: each sub-measurement fills
its fields only on success, percentages are derived when the total is
positive, and the network counters are set to 0 unconditionally
(lines 73–76: "Windows implementation would need more work"). -/
def getSystemMetricsWindows (env : WindowsMetricsEnv) : SystemMetrics :=
  let m0 : SystemMetrics := {}
  let m1 := match env.cpuResult with
    | some cpu => { m0 with CPUPercent := cpu }
    | none => m0
  let m2 := match env.memResult with
    | some (memUsed, memTotal) =>
      { m1 with
        MemoryUsed := memUsed
        MemoryTotal := memTotal
        MemoryPercent :=
          if 0 < memTotal then (memUsed : ℚ) / (memTotal : ℚ) * 100
          else m1.MemoryPercent }
    | none => m1
  let m3 := match env.diskResult with
    | some (diskUsed, diskTotal) =>
      { m2 with
        DiskUsed := diskUsed
        DiskTotal := diskTotal
        DiskPercent :=
          if 0 < diskTotal then (diskUsed : ℚ) / (diskTotal : ℚ) * 100
          else m2.DiskPercent }
    | none => m2
  let m4 := { m3 with NetworkBytesSent := 0, NetworkBytesRecv := 0 }
  match env.uptimeResult with
  | some uptime => { m4 with UptimeSeconds := uptime }
  | none => m4

/-- Floor of a rational (used by the fixed-point formatter). -/
def qfloor (q : ℚ) : Int :=
  Int.fdiv q.num q.den

/-- Round to the nearest integer, ties to even (the rounding of Go
`fmt` `%.2f`). -/
def roundHalfEven (q : ℚ) : Int :=
  let f := qfloor q
  let r := q - (f : ℚ)
  if r < 1 / 2 then f
  else if 1 / 2 < r then f + 1
  else if f % 2 == 0 then f else f + 1

/-- Two-digit zero-padded decimal. -/
def pad2 (n : Nat) : String :=
  if n < 10 then "0" ++ toString n else toString n

/-- Nonnegative fixed-point rendering with two decimals. -/
def formatFix2Nonneg (q : ℚ) : String :=
  let scaled := (roundHalfEven (q * 100)).toNat
  toString (scaled / 100) ++ "." ++ pad2 (scaled % 100)

/-- Go `fmt` `%.2f`. -/
def formatFix2 (q : ℚ) : String :=
  if q < 0 then "-" ++ formatFix2Nonneg (-q) else formatFix2Nonneg q

/-- The Prometheus exposition body `handleMetrics` writes
(lines 97–135 of the server source). -/
def metricsBody (m : SystemMetrics) : String :=
  "# HELP system_cpu_usage_percent CPU usage percentage\n" ++
  "# TYPE system_cpu_usage_percent gauge\n" ++
  "system_cpu_usage_percent " ++ formatFix2 m.CPUPercent ++ "\n\n" ++
  "# HELP system_memory_used_bytes Memory used in bytes\n" ++
  "# TYPE system_memory_used_bytes gauge\n" ++
  "system_memory_used_bytes " ++ toString m.MemoryUsed ++ "\n\n" ++
  "# HELP system_memory_total_bytes Total memory in bytes\n" ++
  "# TYPE system_memory_total_bytes gauge\n" ++
  "system_memory_total_bytes " ++ toString m.MemoryTotal ++ "\n\n" ++
  "# HELP system_memory_usage_percent Memory usage percentage\n" ++
  "# TYPE system_memory_usage_percent gauge\n" ++
  "system_memory_usage_percent " ++ formatFix2 m.MemoryPercent ++ "\n\n" ++
  "# HELP system_disk_used_bytes Disk used in bytes\n" ++
  "# TYPE system_disk_used_bytes gauge\n" ++
  "system_disk_used_bytes " ++ toString m.DiskUsed ++ "\n\n" ++
  "# HELP system_disk_total_bytes Total disk space in bytes\n" ++
  "# TYPE system_disk_total_bytes gauge\n" ++
  "system_disk_total_bytes " ++ toString m.DiskTotal ++ "\n\n" ++
  "# HELP system_disk_usage_percent Disk usage percentage\n" ++
  "# TYPE system_disk_usage_percent gauge\n" ++
  "system_disk_usage_percent " ++ formatFix2 m.DiskPercent ++ "\n\n" ++
  "# HELP system_network_bytes_sent Network bytes sent\n" ++
  "# TYPE system_network_bytes_sent counter\n" ++
  "system_network_bytes_sent " ++ toString m.NetworkBytesSent ++ "\n\n" ++
  "# HELP system_network_bytes_recv Network bytes received\n" ++
  "# TYPE system_network_bytes_recv counter\n" ++
  "system_network_bytes_recv " ++ toString m.NetworkBytesRecv ++ "\n\n" ++
  "# HELP system_uptime_seconds System uptime in seconds\n" ++
  "# TYPE system_uptime_seconds counter\n" ++
  "system_uptime_seconds " ++ toString m.UptimeSeconds ++ "\n"

/-! ## HTTP layer model -/

/-- An inbound request: method, path, client host (the `RemoteAddr`
after the port strip), and the value of the `force` query parameter
(`""` when absent, as Go `URL.Query().Get` returns). -/
structure Request where
  method : String
  path : String
  host : String
  forceQuery : String

/-- A response: status code and body (headers are not modelled). -/
structure Response where
  status : Nat
  body : String
  deriving DecidableEq, Repr

/-- Go `http.Error`: writes the message plus a newline with the given
status code. -/
def httpError (msg : String) (code : Nat) : Response :=
  { status := code, body := msg ++ "\n" }

/-- Observable side effects of a handler, in program order. -/
inductive Event where
  | collectMetrics
  | writeBody (body : String)
  | flush
  | sleepMs (ms : Nat)
  | execCmd (argv : List String)
  | winApi (name : String) (flags : Nat)
  deriving DecidableEq, Repr

/-! ## Shutdown actuators (`shutdown_linux.go`, `shutdown_darwin.go`,
`shutdown_windows.go`)

Each backend is a function of its external world: `run` gives the result
of `exec.Command(...).Run()` (`none` = success, `some e` = the error
text), `ok` gives the success of a named Windows API call.  The returned
trace lists the sleep and every command/API call actually issued, in
order. -/

def shutdownSystemLinux (force : Bool) (run : List String → Option String) :
    Option String × List Event :=
  if force then
    let c1 := ["systemctl", "poweroff", "-i", "--force"]
    match run c1 with
    | some _ =>
      let c2 := ["shutdown", "-h", "now"]
      (run c2, [.sleepMs 100, .execCmd c1, .execCmd c2])
    | none => (none, [.sleepMs 100, .execCmd c1])
  else
    let c1 := ["shutdown", "-h", "+1"]
    match run c1 with
    | some _ =>
      let c2 := ["systemctl", "poweroff"]
      (run c2, [.sleepMs 100, .execCmd c1, .execCmd c2])
    | none => (none, [.sleepMs 100, .execCmd c1])

def shutdownSystemDarwin (force : Bool) (run : List String → Option String) :
    Option String × List Event :=
  if force then
    let c := ["sudo", "shutdown", "-h", "now"]
    (run c, [.sleepMs 100, .execCmd c])
  else
    let c := ["sudo", "shutdown", "-h", "+1"]
    (run c, [.sleepMs 100, .execCmd c])

def EWX_POWEROFF : Nat := 0x8

def EWX_FORCE : Nat := 0x4

/-- The Windows backend: the privilege-raising call sequence, each step
returning its error when the API call fails, then `ExitWindowsEx` with
`EWX_POWEROFF` (plus `EWX_FORCE` when forced).  No step is retried and
no fallback exists. -/
def shutdownSystemWindows (force : Bool) (ok : String → Bool) :
    Option String × List Event :=
  let t1 : List Event := [.sleepMs 100, .winApi "OpenProcessToken" 0]
  if !(ok "OpenProcessToken") then (some "OpenProcessToken failed", t1)
  else
    let t2 := t1 ++ [Event.winApi "LookupPrivilegeValue" 0]
    if !(ok "LookupPrivilegeValue") then (some "LookupPrivilegeValue failed", t2)
    else
      let t3 := t2 ++ [Event.winApi "AdjustTokenPrivileges" 0]
      if !(ok "AdjustTokenPrivileges") then (some "AdjustTokenPrivileges failed", t3)
      else
        let flags := if force then EWX_POWEROFF ||| EWX_FORCE else EWX_POWEROFF
        let t4 := t3 ++ [Event.winApi "ExitWindowsEx" flags]
        if !(ok "ExitWindowsEx") then (some "ExitWindowsEx failed", t4)
        else (none, t4)

inductive Platform where
  | linux
  | darwin
  | windows
  deriving DecidableEq, Repr

/-- The environment a running server observes. -/
structure ServerEnv where
  lb : Option Backend
  hostnameResult : Option String
  metricsResult : Except String SystemMetrics
  platform : Platform
  execRun : List String → Option String
  winOk : String → Bool

/-- Exported `ShutdownSystem` (the platform dispatch of `shutdown.go`). -/
def ShutdownSystem (env : ServerEnv) (force : Bool) : Option String × List Event :=
  match env.platform with
  | .linux => shutdownSystemLinux force env.execRun
  | .darwin => shutdownSystemDarwin force env.execRun
  | .windows => shutdownSystemWindows force env.winOk

/-! ## Handlers and dispatch (`Server.Start`, `handleRoot`,
`handleMetrics`, `handleShutdown`, `requireTailscale`) -/

/-- `handleRoot`: GET only; `os.Hostname` failure degrades to
`"unknown"`. -/
def handleRoot (env : ServerEnv) (req : Request) : Response × List Event :=
  if req.method != "GET" then (httpError "Method not allowed" 405, [])
  else
    let hostname := match env.hostnameResult with
      | some h => h
      | none => "unknown"
    ({ status := 200, body := "hostname: " ++ hostname ++ "\n" }, [])

/-- `handleMetrics`: GET only; invokes the collector (recorded as a
`collectMetrics` event), 500 with the error text on failure, otherwise
the exposition body. -/
def handleMetrics (env : ServerEnv) (req : Request) : Response × List Event :=
  if req.method != "GET" then (httpError "Method not allowed" 405, [])
  else
    match env.metricsResult with
    | .error e =>
      (httpError ("Failed to get metrics: " ++ e) 500, [.collectMetrics])
    | .ok m =>
      ({ status := 200, body := metricsBody m }, [.collectMetrics])

/-- `handleShutdown`: POST only; `force` is true exactly when the query
parameter equals `"true"`; the confirmation body is written and flushed,
then the actuator runs in a goroutine (its error is only logged, so the
response carries 200 regardless). The trace records the write, the
flush, and then the actuator's own events. -/
def handleShutdown (env : ServerEnv) (req : Request) : Response × List Event :=
  if req.method != "POST" then
    (httpError "Method not allowed (use POST)" 405, [])
  else
    let force := req.forceQuery == "true"
    let shutdownType := if force then "forced" else "graceful"
    let body := "Shutdown initiated (" ++ shutdownType ++ ")...\n"
    let act := ShutdownSystem env force
    ({ status := 200, body := body }, [.writeBody body, .flush] ++ act.2)

/-- The routes registered by `Server.Start` on the `ServeMux`: the exact
patterns `/metrics` and `/shutdown`, and the subtree pattern `/` that
matches every other (clean) path. -/
inductive Route where
  | root
  | metrics
  | shutdownRoute
  deriving DecidableEq, Repr

/-- `ServeMux` selection among the three registered patterns for an
already-clean request path. -/
def muxSelect (path : String) : Route :=
  if path == "/metrics" then .metrics
  else if path == "/shutdown" then .shutdownRoute
  else .root

/-- The handler chosen by the mux, before the middleware. -/
def routeHandler (env : ServerEnv) (req : Request) : Response × List Event :=
  match muxSelect req.path with
  | .root => handleRoot env req
  | .metrics => handleMetrics env req
  | .shutdownRoute => handleShutdown env req

/-- The `requireTailscale` middleware around an arbitrary wrapped
handler: the gate decision selects the handler or one of the two fixed
403 responses (an empty trace: the handler is not invoked). -/
def requireTailscale (lb : Option Backend)
    (next : Request → Response × List Event) (req : Request) :
    Response × List Event :=
  match gateDecision req.host lb with
  | .allowed => next req
  | .forbiddenInvalid => (httpError "Forbidden" 403, [])
  | .forbiddenNotMember =>
    (httpError "Forbidden: Only accessible from Tailscale network" 403, [])

/-- One request through the server as wired by `Server.Start`: every
route goes through `requireTailscale`. -/
def serve (env : ServerEnv) (req : Request) : Response × List Event :=
  requireTailscale env.lb (routeHandler env) req

/-- Primary command of the Linux actuator for each force value. -/
def linuxPrimaryCmd (force : Bool) : List String :=
  if force then ["systemctl", "poweroff", "-i", "--force"]
  else ["shutdown", "-h", "+1"]

/-- Fallback command of the Linux actuator for each force value. -/
def linuxFallbackCmd (force : Bool) : List String :=
  if force then ["shutdown", "-h", "now"]
  else ["systemctl", "poweroff"]

/-- The single command of the darwin actuator for each force value. -/
def darwinCmd (force : Bool) : List String :=
  if force then ["sudo", "shutdown", "-h", "now"]
  else ["sudo", "shutdown", "-h", "+1"]

/-! ## Theorems -/

/-- C2: for every state of the peer-roster collaborator, including the
backend being absent, the gate allows a request whose host is exactly
`127.0.0.1`, `::1`, or the literal string `localhost`; the loopback check
precedes parsing, so `localhost` is allowed even though it does not parse
as an IP address. -/
theorem gate_loopback_always_allowed (lb : Option Backend) :
    gateDecision "127.0.0.1" lb = .allowed ∧
    gateDecision "::1" lb = .allowed ∧
    gateDecision "localhost" lb = .allowed ∧
    ParseAddr "localhost" = none :=
  ⟨rfl, rfl, rfl, rfl⟩

/-- C1 as stated is false on the code: the host `8.8.8.8` parses as IPv4,
is neither in 100.64.0.0/10 (first octet 8, not 100) nor a loopback
literal, yet the gate allows it when the roster lists `8.8.8.8` among the
local node's own addresses (the roster step of `requireTailscale`). -/
theorem gate_ipv4_claim_counterexample :
    ParseAddr "8.8.8.8" = some (.v4 8 8 8 8) ∧
    gateDecision "8.8.8.8" (some ⟨some ⟨[Addr.v4 8 8 8 8]⟩⟩) = .allowed ∧
    isLocalhost "8.8.8.8" = false ∧
    ((8 == 100 && ((8 : Nat) &&& 0xC0) == 64) = false) :=
  ⟨rfl, rfl, rfl, rfl⟩

/-- C1 amended: for every host that parses as an IPv4 address, the gate
allows the request if and only if the first octet equals 100 and the
second octet ANDed with 0xC0 equals 0x40 (= 64), or the host is a
loopback literal, or the parsed address exactly matches one of the local
node's own addresses reported by the peer roster; every other IPv4
address is denied. -/
theorem gate_ipv4_characterization (h : String) (b0 b1 b2 b3 : Nat)
    (lb : Option Backend)
    (hp : ParseAddr h = some (.v4 b0 b1 b2 b3)) :
    gateDecision h lb = .allowed ↔
      ((b0 == 100 && (b1 &&& 0xC0) == 64) || isLocalhost h
        || rosterAllows lb (.v4 b0 b1 b2 b3)) = true := by
  unfold gateDecision
  cases hl : isLocalhost h with
  | true => simp
  | false =>
    simp only [Bool.false_eq_true, if_false, hp, Bool.or_false, Bool.false_or]
    have hts : isTailscaleIP (.v4 b0 b1 b2 b3) =
        (b0 == 100 && (b1 &&& 0xC0) == 64) := rfl
    cases hb : (b0 == 100 && (b1 &&& 0xC0) == 64) with
    | true => simp [hts, hb]
    | false =>
      simp only [hts, hb, Bool.false_eq_true, if_false, Bool.false_or]
      rcases lb with _ | ⟨ss⟩
      · simp [rosterAllows]
      · rcases ss with _ | self
        · simp [rosterAllows]
        · cases hc : self.tailscaleIPs.contains (Addr.v4 b0 b1 b2 b3) <;>
            simp [rosterAllows, hc]

/-- Witness for the amended C1 at the member address `100.64.1.2` with
no roster. -/
theorem gate_ipv4_characterization_witness :
    ParseAddr "100.64.1.2" = some (.v4 100 64 1 2) ∧
    (gateDecision "100.64.1.2" none = .allowed ↔
      ((100 == 100 && ((64 : Nat) &&& 0xC0) == 64) || isLocalhost "100.64.1.2"
        || rosterAllows none (.v4 100 64 1 2)) = true) :=
  ⟨rfl, gate_ipv4_characterization "100.64.1.2" 100 64 1 2 none rfl⟩

/-- C4 as stated is false on the code: the IPv4-mapped literal
`::ffff:100.64.1.2` parses to the IPv6 family (`Is4()` is false), its
embedded IPv4 payload `100.64.1.2` satisfies the IPv4 range test, yet
`isTailscaleIP` reports false (the address is tested against the IPv6
ULA prefix, not unmapped) and the gate denies the request. -/
theorem gate_mapped_counterexample :
    ParseAddr "::ffff:100.64.1.2" = some (.v6 0 0 0 0 0 0xffff 0x6440 0x0102) ∧
    Addr.Is4 (.v6 0 0 0 0 0 0xffff 0x6440 0x0102) = false ∧
    ((100 == 100 && ((64 : Nat) &&& 0xC0) == 64) = true) ∧
    isTailscaleIP (.v6 0 0 0 0 0 0xffff 0x6440 0x0102) = false ∧
    gateDecision "::ffff:100.64.1.2" none = .forbiddenNotMember :=
  ⟨rfl, rfl, rfl, rfl, rfl⟩

/-- C4 amended: the gate does not resolve IPv4-mapped IPv6 literals to
their effective IPv4 family. Every mapped address (groups
`0:0:0:0:0:ffff:g6:g7`) is of the IPv6 family, its canonical text begins
with `::ffff:`, so it fails the ULA-prefix test and `isTailscaleIP`
reports false regardless of the embedded IPv4 payload — the mapped form
of a member address is denied rather than admitted (fail closed). -/
theorem gate_mapped_not_unmapped (g6 g7 : Nat) :
    Addr.Is4 (.v6 0 0 0 0 0 0xffff g6 g7) = false ∧
    Addr.Is4In6 (.v6 0 0 0 0 0 0xffff g6 g7) = true ∧
    isTailscaleIP (.v6 0 0 0 0 0 0xffff g6 g7) = false :=
  ⟨rfl, rfl, rfl⟩

/-- C3: for every request the gate denies, on any route, the response is
HTTP 403, the event trace is empty — so the collector is never invoked
and no shutdown command or API call is ever issued — and the outcome is
the same whatever handler is wrapped (the handler is never invoked). -/
theorem gate_denial_no_handler (env : ServerEnv) (req : Request)
    (hdeny : gateDecision req.host env.lb ≠ .allowed) :
    (serve env req).1.status = 403 ∧
    (serve env req).2 = [] ∧
    Event.collectMetrics ∉ (serve env req).2 ∧
    (∀ argv, Event.execCmd argv ∉ (serve env req).2) ∧
    (∀ name flags, Event.winApi name flags ∉ (serve env req).2) ∧
    (∀ next next2 : Request → Response × List Event,
      requireTailscale env.lb next req = requireTailscale env.lb next2 req) := by
  unfold serve requireTailscale
  rcases hd : gateDecision req.host env.lb
  · exact absurd hd hdeny
  · simp [httpError]
  · simp [httpError]

/-- Witness for C3: a denied GET `/metrics` from `8.8.8.8` with no
backend gets a 403 and an empty trace. -/
theorem gate_denial_no_handler_witness :
    gateDecision "8.8.8.8" (none : Option Backend) ≠ Decision.allowed ∧
    (serve
        { lb := none, hostnameResult := some "host", metricsResult := .ok {},
          platform := .linux, execRun := fun _ => none, winOk := fun _ => true }
        { method := "GET", path := "/metrics", host := "8.8.8.8",
          forceQuery := "" }).1.status = 403 ∧
    (serve
        { lb := none, hostnameResult := some "host", metricsResult := .ok {},
          platform := .linux, execRun := fun _ => none, winOk := fun _ => true }
        { method := "GET", path := "/metrics", host := "8.8.8.8",
          forceQuery := "" }).2 = [] := by
  refine ⟨by decide, ?_, ?_⟩
  · exact (gate_denial_no_handler _ _ (by decide)).1
  · exact (gate_denial_no_handler _ _ (by decide)).2.1

/-- C10 : the `/` pattern is a catch-all: an admitted request whose path
is neither `/metrics` nor `/shutdown` is dispatched to the hostname
handler, and a GET returns 200 with body `hostname: <name>\n` (or the
sentinel `unknown` when hostname resolution failed) rather than 404. -/
theorem root_catchall (env : ServerEnv) (req : Request)
    (hp1 : req.path ≠ "/metrics") (hp2 : req.path ≠ "/shutdown")
    (hallow : gateDecision req.host env.lb = .allowed)
    (hget : req.method = "GET") :
    serve env req =
      ({ status := 200,
         body := "hostname: " ++
           (match env.hostnameResult with
            | some h => h
            | none => "unknown") ++ "\n" },
        []) := by
  unfold serve requireTailscale
  rw [hallow]
  unfold routeHandler muxSelect
  have h1 : (req.path == "/metrics") = false := by
    simp [hp1]
  have h2 : (req.path == "/shutdown") = false := by
    simp [hp2]
  simp only [h1, h2, Bool.false_eq_true, if_false]
  unfold handleRoot
  rw [hget]
  rfl

/-- Witness for C10: GET `/anything` from localhost returns the
hostname body. -/
theorem root_catchall_witness :
    serve
        { lb := none, hostnameResult := some "mybox", metricsResult := .ok {},
          platform := .linux, execRun := fun _ => none, winOk := fun _ => true }
        { method := "GET", path := "/anything", host := "127.0.0.1",
          forceQuery := "" } =
      ({ status := 200, body := "hostname: mybox\n" }, []) := by
  have h := root_catchall
    { lb := none, hostnameResult := some "mybox", metricsResult := .ok {},
      platform := .linux, execRun := fun _ => none, winOk := fun _ => true }
    { method := "GET", path := "/anything", host := "127.0.0.1",
      forceQuery := "" }
    (by decide) (by decide) (by decide) rfl
  simpa using h

/-- Every platform actuator's trace begins with the 100 ms sleep
(`time.Sleep(100 * time.Millisecond)` is the first statement of each
`shutdownSystem`). -/
theorem shutdownTrace_sleep_first (env : ServerEnv) (force : Bool) :
    ∃ rest, (ShutdownSystem env force).2 = Event.sleepMs 100 :: rest := by
  rcases env with ⟨lb, hn, mr, p, run, ok⟩
  rcases p
  · cases force
    · rcases hr : run ["shutdown", "-h", "+1"] with _ | e <;>
        simp [ShutdownSystem, shutdownSystemLinux, hr]
    · rcases hr : run ["systemctl", "poweroff", "-i", "--force"] with _ | e <;>
        simp [ShutdownSystem, shutdownSystemLinux, hr]
  · cases force <;> simp [ShutdownSystem, shutdownSystemDarwin]
  · cases h1 : ok "OpenProcessToken" <;>
      cases h2 : ok "LookupPrivilegeValue" <;>
      cases h3 : ok "AdjustTokenPrivileges" <;>
      cases h4 : ok "ExitWindowsEx" <;>
      simp [ShutdownSystem, shutdownSystemWindows, h1, h2, h3, h4]

/-- C8: for every allowed POST `/shutdown` request, the response is 200
with the confirmation body (`forced` exactly when the force query
parameter is `"true"`, `graceful` otherwise), the trace writes and
flushes that body before any actuator event, and on every platform the
actuator's trace begins with the 100 ms sleep, which therefore precedes
every platform shutdown command or API call. -/
theorem shutdown_response_precedes_actuation (env : ServerEnv) (req : Request)
    (hm : req.method = "POST") (hp : req.path = "/shutdown")
    (hallow : gateDecision req.host env.lb = .allowed) :
    serve env req =
      ({ status := 200,
         body := "Shutdown initiated (" ++
           (if req.forceQuery == "true" then "forced" else "graceful") ++
           ")...\n" },
        [.writeBody ("Shutdown initiated (" ++
           (if req.forceQuery == "true" then "forced" else "graceful") ++
           ")...\n"),
         .flush] ++ (ShutdownSystem env (req.forceQuery == "true")).2) ∧
    (∃ rest, (ShutdownSystem env (req.forceQuery == "true")).2 =
      Event.sleepMs 100 :: rest) := by
  constructor
  · unfold serve requireTailscale
    rw [hallow]
    unfold routeHandler muxSelect
    rw [hp]
    unfold handleShutdown
    rw [hm]
    rfl
  · exact shutdownTrace_sleep_first env (req.forceQuery == "true")

/-- Witness for C8: an allowed forced shutdown on the Linux backend with
a succeeding primary command. -/
theorem shutdown_response_precedes_actuation_witness :
    serve
        { lb := none, hostnameResult := some "h", metricsResult := .ok {},
          platform := .linux, execRun := fun _ => none, winOk := fun _ => true }
        { method := "POST", path := "/shutdown", host := "127.0.0.1",
          forceQuery := "true" } =
      ({ status := 200, body := "Shutdown initiated (forced)...\n" },
        [.writeBody "Shutdown initiated (forced)...\n", .flush,
         .sleepMs 100,
         .execCmd ["systemctl", "poweroff", "-i", "--force"]]) := by
  have h := (shutdown_response_precedes_actuation
    { lb := none, hostnameResult := some "h", metricsResult := .ok {},
      platform := .linux, execRun := fun _ => none, winOk := fun _ => true }
    { method := "POST", path := "/shutdown", host := "127.0.0.1",
      forceQuery := "true" }
    rfl rfl (by decide)).1
  simpa using h

/-- C5: the first call to the CPU sampler (stored state still the zero
value, whose `total` is 0) stores the snapshot and returns exactly 0;
every later call whose counters genuinely advanced returns
`100 * (1 - idle_delta / total_delta)` against the immediately preceding
sample; in particular deltas `idle = +50, total = +100` yield exactly
50. -/
theorem cpu_first_zero_then_delta :
    (∀ stats : CpuStats, getCPUUsage stats initialCPUStats = (0, stats)) ∧
    (∀ last stats : CpuStats,
      0 < last.total → last.total < stats.total → stats.total < U64 →
      last.idle ≤ stats.idle → stats.idle < U64 →
      stats.idle - last.idle ≤ stats.total - last.total →
      getCPUUsage stats last =
        (100 * (1 - ((stats.idle - last.idle : ℕ) : ℚ) /
            ((stats.total - last.total : ℕ) : ℚ)), stats)) ∧
    getCPUUsage (mkStats 150 0 0 150 0 0) (mkStats 100 0 0 100 0 0) =
      (50, mkStats 150 0 0 150 0 0) := by
  refine ⟨fun stats => rfl, ?_, by norm_num [getCPUUsage, mkStats, U64]⟩
  intro last stats h1 h2 h3 h4 h5 h6
  have hDt : (stats.total + U64 - last.total) % U64 =
      stats.total - last.total := by
    rw [show stats.total + U64 - last.total
          = U64 + (stats.total - last.total) by omega,
        Nat.add_mod_left, Nat.mod_eq_of_lt (by omega)]
  have hDi : (stats.idle + U64 - last.idle) % U64 =
      stats.idle - last.idle := by
    rw [show stats.idle + U64 - last.idle
          = U64 + (stats.idle - last.idle) by omega,
        Nat.add_mod_left, Nat.mod_eq_of_lt (by omega)]
  have hNum : (stats.total - last.total) + U64 - (stats.idle - last.idle)
      = U64 + ((stats.total - last.total) - (stats.idle - last.idle)) := by
    omega
  unfold getCPUUsage
  rw [if_pos h1]
  simp only [hDt, hDi]
  rw [if_pos (by omega : 0 < stats.total - last.total)]
  refine Prod.ext ?_ rfl
  rw [hNum, Nat.add_mod_left, Nat.mod_eq_of_lt (by omega)]
  have hne : ((stats.total - last.total : ℕ) : ℚ) ≠ 0 :=
    Nat.cast_ne_zero.mpr (by omega)
  rw [Nat.cast_sub h6]
  field_simp
  ring

/-- Witness for C5 at concrete samples: previous totals
`(idle, total) = (100, 200)`, fresh `(150, 300)`, deltas `+50 / +100`,
reported usage `100 * (1 - 50/100)`. -/
theorem cpu_first_zero_then_delta_witness :
    getCPUUsage (mkStats 150 0 0 150 0 0) (mkStats 100 0 0 100 0 0) =
      (100 * (1 - ((50 : ℕ) : ℚ) / ((100 : ℕ) : ℚ)),
        mkStats 150 0 0 150 0 0) := by
  have h := cpu_first_zero_then_delta.2.1
    (mkStats 100 0 0 100 0 0) (mkStats 150 0 0 150 0 0)
    (by decide) (by decide) (by decide) (by decide) (by decide) (by decide)
  simpa [mkStats, U64] using h

/-- C6 as stated is false on the code: when the cumulative counters
decrease between samples (previous `(idle, total) = (60, 100)`, fresh
`(30, 50)`), the `uint64` deltas wrap around to huge positive values,
the `totalDelta > 0` guard passes, and the sampler reports a nonzero
percentage instead of 0. -/
theorem cpu_decrease_counterexample :
    (getCPUUsage (mkStats 20 0 0 30 0 0) (mkStats 40 0 0 60 0 0)).1 ≠ 0 := by
  norm_num [getCPUUsage, mkStats, U64]

/-- C6 amended: when `total_delta` is zero the sampler reports 0 (the
guard skips the division, so it never divides by zero), and the reported
percentage is never negative; but a decrease of the counters is not
guarded: the unsigned deltas wrap modulo `2^64` and a large positive
percentage is reported instead of 0. -/
theorem cpu_zero_delta_guard :
    (∀ last stats : CpuStats, stats.total = last.total →
      getCPUUsage stats last = (0, stats)) ∧
    (∀ last stats : CpuStats, 0 ≤ (getCPUUsage stats last).1) := by
  constructor
  · intro last stats h
    unfold getCPUUsage
    have h0 : (stats.total + U64 - last.total) % U64 = 0 := by
      rw [show stats.total + U64 - last.total = U64 by omega, Nat.mod_self]
    by_cases hl : 0 < last.total
    · rw [if_pos hl]
      simp only [h0]
      rw [if_neg (by omega)]
    · rw [if_neg hl]
  · intro last stats
    unfold getCPUUsage
    by_cases hl : 0 < last.total
    · rw [if_pos hl]
      by_cases ht : 0 < (stats.total + U64 - last.total) % U64
      · rw [if_pos ht]
        exact mul_nonneg (div_nonneg (Nat.cast_nonneg _) (Nat.cast_nonneg _))
          (by norm_num)
      · rw [if_neg ht]
    · rw [if_neg hl]

/-- Witness for the amended C6: two samples with equal totals report 0,
and the report at the wrapping counterexample input is nonnegative. -/
theorem cpu_zero_delta_guard_witness :
    getCPUUsage (mkStats 5 0 0 3 0 0) (mkStats 4 1 0 3 0 0) =
      (0, mkStats 5 0 0 3 0 0) ∧
    0 ≤ (getCPUUsage (mkStats 5 0 0 3 0 0) (mkStats 4 1 0 3 0 0)).1 :=
  ⟨cpu_zero_delta_guard.1 (mkStats 4 1 0 3 0 0) (mkStats 5 0 0 3 0 0)
      (by decide),
    cpu_zero_delta_guard.2 (mkStats 4 1 0 3 0 0) (mkStats 5 0 0 3 0 0)⟩

/-- C7 as stated is false on the code: the darwin backend has no
fallback mechanism at all. With a forced shutdown whose only command
fails, the error is surfaced directly and the trace shows that exactly
one command was attempted — no secondary mechanism runs before the error
is returned. -/
theorem shutdown_no_fallback_counterexample :
    (shutdownSystemDarwin true (fun _ => some "exec failed")).1 =
      some "exec failed" ∧
    (shutdownSystemDarwin true (fun _ => some "exec failed")).2 =
      [.sleepMs 100, .execCmd ["sudo", "shutdown", "-h", "now"]] :=
  ⟨rfl, rfl⟩

/-- C7 amended: only the Linux backend has a primary/fallback pair. For
every force value, when the Linux primary succeeds the call returns
success without touching the fallback; when the primary fails the
fallback is attempted and its result alone is surfaced (fallback success
is overall success, but a double failure surfaces only the fallback's
error, not a combined error). The darwin backend always issues exactly
its single command and surfaces that command's result directly. The
windows backend attempts no fallback either: whichever of its four API
steps fails first, that step's error is surfaced directly and the trace
ends at the failing call — no second mechanism is attempted. -/
theorem shutdown_fallback_linux_only (force : Bool)
    (run : List String → Option String) (ok : String → Bool) :
    (run (linuxPrimaryCmd force) = none →
      shutdownSystemLinux force run =
        (none, [.sleepMs 100, .execCmd (linuxPrimaryCmd force)])) ∧
    (∀ e, run (linuxPrimaryCmd force) = some e →
      shutdownSystemLinux force run =
        (run (linuxFallbackCmd force),
          [.sleepMs 100, .execCmd (linuxPrimaryCmd force),
            .execCmd (linuxFallbackCmd force)])) ∧
    shutdownSystemDarwin force run =
      (run (darwinCmd force), [.sleepMs 100, .execCmd (darwinCmd force)]) ∧
    (ok "OpenProcessToken" = false →
      shutdownSystemWindows force ok =
        (some "OpenProcessToken failed",
          [.sleepMs 100, .winApi "OpenProcessToken" 0])) ∧
    (ok "OpenProcessToken" = true → ok "LookupPrivilegeValue" = false →
      shutdownSystemWindows force ok =
        (some "LookupPrivilegeValue failed",
          [.sleepMs 100, .winApi "OpenProcessToken" 0,
            .winApi "LookupPrivilegeValue" 0])) ∧
    (ok "OpenProcessToken" = true → ok "LookupPrivilegeValue" = true →
      ok "AdjustTokenPrivileges" = false →
      shutdownSystemWindows force ok =
        (some "AdjustTokenPrivileges failed",
          [.sleepMs 100, .winApi "OpenProcessToken" 0,
            .winApi "LookupPrivilegeValue" 0,
            .winApi "AdjustTokenPrivileges" 0])) ∧
    (ok "OpenProcessToken" = true → ok "LookupPrivilegeValue" = true →
      ok "AdjustTokenPrivileges" = true → ok "ExitWindowsEx" = false →
      shutdownSystemWindows force ok =
        (some "ExitWindowsEx failed",
          [.sleepMs 100, .winApi "OpenProcessToken" 0,
            .winApi "LookupPrivilegeValue" 0,
            .winApi "AdjustTokenPrivileges" 0,
            .winApi "ExitWindowsEx"
              (if force then EWX_POWEROFF ||| EWX_FORCE
                else EWX_POWEROFF)])) := by
  cases force <;>
    refine ⟨fun h => ?_, fun e h => ?_, rfl, fun h1 => ?_, fun h1 h2 => ?_,
        fun h1 h2 h3 => ?_, fun h1 h2 h3 h4 => ?_⟩ <;>
      first
        | (simp only [linuxPrimaryCmd, linuxFallbackCmd, Bool.false_eq_true,
            if_false, if_true] at h ⊢
           simp [shutdownSystemLinux, h])
        | simp_all [shutdownSystemWindows]

/-- Witness for the amended C7: a forced Linux shutdown whose primary
command fails falls back to the traditional command, which succeeds, and
the call reports overall success; and a forced windows shutdown whose
first API step fails surfaces that failure directly after attempting
only that one call. -/
theorem shutdown_fallback_linux_only_witness :
    shutdownSystemLinux true
        (fun c => if c = ["systemctl", "poweroff", "-i", "--force"]
          then some "e1" else none) =
      (none,
        [.sleepMs 100, .execCmd ["systemctl", "poweroff", "-i", "--force"],
          .execCmd ["shutdown", "-h", "now"]]) ∧
    shutdownSystemWindows true (fun _ => false) =
      (some "OpenProcessToken failed",
        [.sleepMs 100, .winApi "OpenProcessToken" 0]) := by
  constructor
  · have h := (shutdown_fallback_linux_only true
      (fun c => if c = ["systemctl", "poweroff", "-i", "--force"]
        then some "e1" else none)
      (fun _ => false)).2.1 "e1" (by simp [linuxPrimaryCmd])
    simpa [linuxPrimaryCmd, linuxFallbackCmd] using h
  · exact (shutdown_fallback_linux_only true (fun _ => none)
      (fun _ => false)).2.2.2.1 rfl

/-- C9: the windows metrics collector reports both network byte counters
as 0 unconditionally (no per-interface summation is performed), while
CPU, memory, disk and uptime fields are filled from their successful
sub-measurements as usual. -/
theorem windows_network_counters_zero (env : WindowsMetricsEnv) :
    (getSystemMetricsWindows env).NetworkBytesSent = 0 ∧
    (getSystemMetricsWindows env).NetworkBytesRecv = 0 ∧
    (∀ c, env.cpuResult = some c →
      (getSystemMetricsWindows env).CPUPercent = c) ∧
    (∀ u t, env.memResult = some (u, t) →
      (getSystemMetricsWindows env).MemoryUsed = u ∧
      (getSystemMetricsWindows env).MemoryTotal = t) ∧
    (∀ u t, env.diskResult = some (u, t) →
      (getSystemMetricsWindows env).DiskUsed = u ∧
      (getSystemMetricsWindows env).DiskTotal = t) ∧
    (∀ s, env.uptimeResult = some s →
      (getSystemMetricsWindows env).UptimeSeconds = s) := by
  rcases env with ⟨cpu, mem, disk, up⟩
  rcases cpu with _ | c <;> rcases mem with _ | ⟨mu, mt⟩ <;>
    rcases disk with _ | ⟨du, dt⟩ <;> rcases up with _ | s <;>
    simp [getSystemMetricsWindows]

/-- Witness for C9 at a fully successful measurement set. -/
theorem windows_network_counters_zero_witness :
    (getSystemMetricsWindows
        ⟨some 5, some (10, 100), some (20, 200), some 77⟩).NetworkBytesSent
      = 0 ∧
    (getSystemMetricsWindows
        ⟨some 5, some (10, 100), some (20, 200), some 77⟩).MemoryUsed = 10 ∧
    (getSystemMetricsWindows
        ⟨some 5, some (10, 100), some (20, 200), some 77⟩).UptimeSeconds
      = 77 :=
  ⟨(windows_network_counters_zero _).1,
    ((windows_network_counters_zero _).2.2.2.1 10 100 rfl).1,
    (windows_network_counters_zero _).2.2.2.2.2 77 rfl⟩

end TailscaleWeb
